import Mathlib

/-!
Verification of the streaming-upload / base64-upload subsystem of
`src/core/classes/FileUtils.py` (class `FileController`).

The Python code is shallowly embedded: bytes are `List Nat`, Python
exceptions are an explicit `PyExc` type, handlers return an `Outcome`
(an HTTP response, an early return, or an uncaught exception) together
with a trace of the observable steps they performed (stream reads,
base64 decode, MIME sniff, content-type check, persistence calls).
External collaborators (the abstract `create_file`, `Utils.serialize_model`,
PIL's image operations, and `filetype.guess`) are parameters gathered in
a `Collab` structure, mirroring the fact that they live outside the
sources of this subsystem.
-/

namespace FileUtilsVerif

/-- Python slice-index adjustment used by `str.count(sub, start, end)`:
a negative index counts from the end of the string, and the result is
clamped to the interval `[0, len]`. -/
def pySliceIdx (len : Nat) (i : Int) : Nat :=
  if i < 0 then (max (i + len) 0).toNat else min i.toNat len

/-- Python `s.count(c, start, stop)` for a single-character needle: the
number of occurrences of `c` inside the slice `s[start:stop]` (empty
when the adjusted start is not below the adjusted stop). -/
def pyCount (s : List Char) (c : Char) (start stop : Int) : Nat :=
  let a := pySliceIdx s.length start
  let b := pySliceIdx s.length stop
  ((s.drop a).take (b - a)).count c

/-- Python `filename.split(".")`: split on every dot, keeping empty
segments; `"".split(".") == [""]`, so the result is never empty. -/
def pySplit : List Char → List (List Char)
  | [] => [[]]
  | c :: rest =>
    match pySplit rest with
    | [] => [[c]]
    | h :: t => if c = '.' then [] :: h :: t else (c :: h) :: t

/-- `FileController.get_base64_file_length` (FileUtils.py line 255): the
source computes `(len(b64string) * 3) / 4 - b64string.count("=", -1, -5)`
with Python true division, modelled exactly in `ℚ`. -/
def get_base64_file_length (b64string : List Char) : ℚ :=
  ((b64string.length : ℚ) * 3) / 4 - (pyCount b64string '=' (-1) (-5) : ℚ)

/-- Python exception values that the embedded code can raise. -/
inductive PyExc where
  | fileSizeGreaterThanAllowed
  | contentTypeNotAllowed (invalid_type : String) (accepted_types : List String)
  | binasciiError
  | attributeError
  | unboundLocalError (name : String)
deriving DecidableEq, Repr

/-- Single quote character, used when rendering Python `repr` of strings. -/
def sq : String := String.singleton (Char.ofNat 39)

/-- Python `str` of a list of strings, as an f-string renders it:
`['a', 'b']`. -/
def pyReprStrList (xs : List String) : String :=
  "[" ++ String.intercalate ", " (xs.map (fun s => sq ++ s ++ sq)) ++ "]"

/-- Python `str(e)` for the exceptions whose message the handlers render
into a response (`FileSizeGreaterThanAllowed.__str__` and
`ContentTypeNotAllowed.__str__`); the remaining exceptions are never
stringified by the embedded handlers, so their text is nominal. -/
def exc_str : PyExc → String
  | .fileSizeGreaterThanAllowed => "The file size exceeds the allowed limit of 4MB."
  | .contentTypeNotAllowed t a =>
      "Files of type " ++ t ++ " are not allowed. " ++
      "Please upload a file with the following extensions: " ++ pyReprStrList a
  | .binasciiError => "binascii.Error"
  | .attributeError => "AttributeError"
  | .unboundLocalError n => "UnboundLocalError: " ++ n

/-- Index of a character in the standard base64 alphabet. -/
def b64CharVal (c : Char) : Option Nat :=
  if 'A' ≤ c ∧ c ≤ 'Z' then some (c.toNat - 65)
  else if 'a' ≤ c ∧ c ≤ 'z' then some (c.toNat - 97 + 26)
  else if '0' ≤ c ∧ c ≤ '9' then some (c.toNat - 48 + 52)
  else if c = '+' then some 62
  else if c = '/' then some 63
  else none

/-- Bytes of a run of base64 digit values (6 bits each): each full group
of four digits yields three bytes; a trailing pair or triple (a padded
final group) yields one or two bytes. -/
def b64DecodeGroups : List Nat → List Nat
  | a :: b :: c :: d :: rest =>
      (a * 4 + b / 16) :: ((b % 16) * 16 + c / 4) :: ((c % 4) * 64 + d) ::
        b64DecodeGroups rest
  | [a, b] => [a * 4 + b / 16]
  | [a, b, c] => [a * 4 + b / 16, (b % 16) * 16 + c / 4]
  | _ => []

/-- Model of CPython `base64.b64decode` (default non-strict mode) as
called by `FileController.decode_base64_file`: characters outside the
alphabet and `=` are discarded, the digits before the first `=` are
decoded, and `binascii.Error` is raised when the digit count is 1 mod 4
or the padding is too short for the final group. (CPython additionally
decodes data appearing after complete padding; no input considered in
this development has such data.) -/
def b64decode (s : List Char) : Except PyExc (List Nat) :=
  let kept := s.filter (fun c => (b64CharVal c).isSome || c == '=')
  let data := kept.takeWhile (fun c => c ≠ '=')
  let pads := ((kept.drop data.length).filter (fun c => c == '=')).length
  let vals := data.filterMap b64CharVal
  if vals.length % 4 == 1 then .error .binasciiError
  else if vals.length % 4 == 2 && pads < 2 then .error .binasciiError
  else if vals.length % 4 == 3 && pads < 1 then .error .binasciiError
  else .ok (b64DecodeGroups vals)

/-- Observable steps a handler performs, in order. -/
inductive Event where
  | streamRead (n : Nat)
  | decodeB64
  | sniff
  | typeCheck (content_type : String)
  | persist (is_thumbnail : Nat) (filename : String) (data : List Nat)
deriving DecidableEq, Repr

abbrev Trace := List Event

/-- Python values appearing in response payloads. -/
inductive PyValue where
  | str (s : String)
  | dict (fields : List (String × PyValue))
  | list (xs : List PyValue)

/-- Outcome of a handler call: a response written via `self.response`,
an early return after `get_session` already answered, or an exception
that escaped the handler uncaught. -/
inductive Outcome where
  | response (status : Nat) (data : Option PyValue) (error : Option String)
  | earlyReturn
  | uncaught (e : PyExc)

/-- Configuration loaded in `FileController.__init__` from config.ini. -/
structure FileControllerState where
  accepted_files : List String
  max_file_size : Nat

/-- External collaborators of `FileController`, over a record type `α`
for persisted file rows: the abstract `create_file`
(`FileAbstract.create_file`, implemented outside this file, given
positionally the name, content, type, `is_thumbnail`, `encode_to_base64`,
user, `public`, `private`), `Utils.serialize_model`, PIL-backed
`create_thumbnail_image` and `compress_image` bodies, and
the result of `filetype.guess` (`none` when sniffing fails). -/
structure Collab (α : Type) where
  create_file : String → List Nat → String → Nat → Bool → Nat → Bool → Bool → Option α
  serialize_model : α → PyValue
  make_thumb : List Nat → List Nat
  compress : List Nat → List Nat
  guess : List Nat → Option String

/-- `FileController.CHUNK_SIZE`. -/
def CHUNK_SIZE : Nat := 8192

/-- `FileController.IMAGE_EXTENSIONS`. -/
def IMAGE_EXTENSIONS : List String := ["image/jpeg", "image/png", "image/jpg"]

/-- Modelled from the spec: the constant `PROBLEM_SAVING_TO_DB` is
inherited from `core.Controller`, which is not among the sources; the
spec gives its message as "problem saving to db". -/
def PROBLEM_SAVING_TO_DB : String := "problem saving to db"

/-- Python truthiness of the optional `id: int = None` route argument
(`if id:` is false for both `None` and `0`). -/
def pyTruthyId : Option Nat → Bool
  | none => false
  | some n => n != 0

/-- `FileController.check_if_valid_content_type`. -/
def check_if_valid_content_type (st : FileControllerState) (content_type : String) :
    Except PyExc Unit :=
  if content_type ∉ st.accepted_files then
    .error (.contentTypeNotAllowed content_type st.accepted_files)
  else .ok ()

/-- `FileController.check_if_make_thumbnail`: `req.params.get("thumbnail") == "True"`. -/
def check_if_make_thumbnail (p : Option String) : Bool := p == some "True"

/-- `FileController.check_if_public_file`: `req.params.get("public") == "True"`. -/
def check_if_public_file (p : Option String) : Bool := p == some "True"

/-- `FileController.check_if_private_file`: `req.params.get("private") == "True"`. -/
def check_if_private_file (p : Option String) : Bool := p == some "True"

/-- One multipart body part: its declared filename and content type, and
its stream, modelled as the successive chunks `part.stream.read(CHUNK_SIZE)`
returns (an empty chunk means end of stream). -/
structure Part where
  filename : String
  content_type : String
  chunks : List (List Nat)

/-- The `while chunk := part.stream.read(self.CHUNK_SIZE)` loop of
`FileController.process_stream`: accumulate chunks, add each chunk's
length to `read_so_far`, and raise `FileSizeGreaterThanAllowed` as soon
as `read_so_far > max_file_size`; an empty read ends the loop. -/
def stream_read_loop (st : FileControllerState) :
    List (List Nat) → Nat → List Nat → Trace × Except PyExc (List Nat)
  | [], _, data => ([], .ok data)
  | chunk :: rest, read_so_far, data =>
    if chunk.length = 0 then ([], .ok data)
    else
      let read_so_far := read_so_far + chunk.length
      if read_so_far > st.max_file_size then
        ([.streamRead chunk.length], .error .fileSizeGreaterThanAllowed)
      else
        let r := stream_read_loop st rest read_so_far (data ++ chunk)
        (Event.streamRead chunk.length :: r.1, r.2)

/-- `FileController.process_stream`: validate the part's content type,
run the chunked read loop, and compress the joined bytes when the
content type is an image type. -/
def process_stream {α : Type} (C : Collab α) (st : FileControllerState)
    (content_type : String) (chunks : List (List Nat)) :
    Trace × Except PyExc (List Nat) :=
  match check_if_valid_content_type st content_type with
  | .error e => ([.typeCheck content_type], .error e)
  | .ok _ =>
    match stream_read_loop st chunks 0 [] with
    | (tr, .error e) => (Event.typeCheck content_type :: tr, .error e)
    | (tr, .ok data) =>
      if content_type ∈ IMAGE_EXTENSIONS then
        (Event.typeCheck content_type :: tr, .ok (C.compress data))
      else
        (Event.typeCheck content_type :: tr, .ok data)

/-- Thumbnail name derivation inside `FileController.create_thumbnail`
(lines 217-222): `filename.split(".")`, then
`parts[0] + "_thumbnail" + ("." + parts[1] if len(parts) > 1 else "")`,
computed on character lists. (`pySplit` never returns `[]`, so the first
branch is unreachable.) -/
def thumbnail_name_chars (cs : List Char) : List Char :=
  match pySplit cs with
  | [] => "_thumbnail".toList
  | [p0] => p0 ++ "_thumbnail".toList
  | p0 :: p1 :: _ => p0 ++ "_thumbnail".toList ++ '.' :: p1

/-- Thumbnail filename derived from the original filename. -/
def thumbnail_name_of (filename : String) : String :=
  String.mk (thumbnail_name_chars filename.toList)

/-- `FileController.create_thumbnail`: build the thumbnail bytes, derive
the thumbnail name, and call `create_file` with `is_thumbnail=1` and
`private=False` (the source hard-codes `private=False` at line 231);
the persistence attempt is recorded as a trace event. -/
def create_thumbnail {α : Type} (C : Collab α) (image_data : List Nat)
    (filename : String) (content_type : String) (encode_to_base64 : Bool)
    (user : Nat) (pub : Bool) : Trace × Option α :=
  let thumbnail_content := C.make_thumb image_data
  let thumbnail_name := thumbnail_name_of filename
  ([.persist 1 thumbnail_name thumbnail_content],
   C.create_file thumbnail_name thumbnail_content content_type 1
     encode_to_base64 user pub false)

/-- `FileController.process_file`: persist the primary file (recorded as
a `persist 0` event); on failure return the error payload with status
500 and no thumbnail; on success, when a thumbnail was requested and the
content type is an image type, attempt the thumbnail and map its failure
to an inline error entry; return status 201. -/
def process_file {α : Type} (C : Collab α) (filename : String)
    (data : List Nat) (content_type : String) (user : Nat)
    (encode_to_base64 make_thumbnail pub priv : Bool) :
    Trace × (PyValue × Option PyValue × Nat) :=
  let ptr : Trace := [.persist 0 filename data]
  match C.create_file filename data content_type 0 encode_to_base64 user pub priv with
  | none =>
    (ptr, (.dict [("Filename", .str filename), ("Error", .str PROBLEM_SAVING_TO_DB)],
           none, 500))
  | some file =>
    if make_thumbnail = true ∧ content_type ∈ IMAGE_EXTENSIONS then
      let tres := create_thumbnail C data filename content_type encode_to_base64 user pub
      let thumbnail : PyValue :=
        match tres.2 with
        | some t => C.serialize_model t
        | none => .dict [("Filename_thumbnail", .str filename),
                         ("error", .str PROBLEM_SAVING_TO_DB)]
      (ptr ++ tres.1, (C.serialize_model file, some thumbnail, 201))
    else
      (ptr, (C.serialize_model file, none, 201))

/-- `FileController.decode_base64_file`: `base64.b64decode(base64_info)`. -/
def decode_base64_file (base64_info : String) : Except PyExc (List Nat) :=
  b64decode base64_info.toList

/-- `FileController.get_mimetype`: `filetype.guess(data).mime`; when
`filetype.guess` returns `None`, the `.mime` attribute access raises an
uncaught `AttributeError`. -/
def get_mimetype {α : Type} (C : Collab α) (data : List Nat) : Except PyExc String :=
  match C.guess data with
  | none => .error .attributeError
  | some m => .ok m

/-- Message of `get_base64_info` when `file_name` or `base64` is missing
or empty: `'file_name' and 'base64' needed`. -/
def fieldsNeededMsg : String :=
  sq ++ "file_name" ++ sq ++ " and " ++ sq ++ "base64" ++ sq ++ " needed"

/-- Request seen by `on_post_base64`: the query parameters and the JSON
body, the latter modelled by its parse outcome — the exception message
when `json.loads` fails, or the results of `data.get("file_name")` and
`data.get("base64")`. -/
structure Base64Request where
  thumbnail_param : Option String
  public_param : Option String
  private_param : Option String
  body : Except String (Option String × Option String)

/-- Result triple of `FileController.get_base64_info`
(`base64_info, file_name, error_message` with exactly one side set). -/
inductive B64Info where
  | err (msg : String)
  | ok (base64_info : String) (file_name : String)
deriving DecidableEq, Repr

/-- `FileController.get_base64_info`: parse the JSON body, require
truthy `file_name` and `base64` fields (Python falsiness: absent or
empty string), and reject when `get_base64_file_length(base64_info)`
exceeds `max_file_size` — all before any decode. -/
def get_base64_info (st : FileControllerState) (req : Base64Request) : B64Info :=
  match req.body with
  | .error exc => .err exc
  | .ok (file_name, base64_info) =>
    match file_name, base64_info with
    | some fn, some b64 =>
      if fn = "" ∨ b64 = "" then .err fieldsNeededMsg
      else if get_base64_file_length b64.toList > (st.max_file_size : ℚ) then
        .err ("The file " ++ fn ++ " is larger than 4mb.")
      else .ok b64 fn
    | _, _ => .err fieldsNeededMsg

/-- Request seen by `on_post`: the query parameters and the multipart
form's parts (`req.get_media()`). -/
structure MultipartRequest where
  thumbnail_param : Option String
  public_param : Option String
  private_param : Option String
  parts : List Part

/-- `FileController.on_post`: reject a truthy route id with 405; return
early when `get_session` fails; iterate the form (breaking after the
first part): process its stream, answering 400 with the exception text
when that raises, otherwise run `process_file`; after the loop respond
with `code` and `data` — names that were never bound when the form had
no parts, so that call raises `UnboundLocalError`. -/
def on_post {α : Type} (C : Collab α) (st : FileControllerState)
    (session : Option Nat) (req : MultipartRequest) (id : Option Nat) :
    Trace × Outcome :=
  if pyTruthyId id then ([], .response 405 none none)
  else
    match session with
    | none => ([], .earlyReturn)
    | some user =>
      let make_thumbnail := check_if_make_thumbnail req.thumbnail_param
      let public_file := check_if_public_file req.public_param
      let private_file := check_if_private_file req.private_param
      match req.parts with
      | [] => ([], .uncaught (.unboundLocalError "code"))
      | part :: _ =>
        match process_stream C st part.content_type part.chunks with
        | (tr, .error e) => (tr, .response 400 none (some (exc_str e)))
        | (tr, .ok stream_content) =>
          let pf := process_file C part.filename stream_content part.content_type
            user false make_thumbnail public_file private_file
          let file_data := pf.2.1
          let thumbnail_data := pf.2.2.1
          let code := pf.2.2.2
          let data : PyValue :=
            match thumbnail_data with
            | some t => .list [file_data, t]
            | none => .list [file_data]
          (tr ++ pf.1, .response code (some data) none)

/-- `FileController.on_post_base64`: reject a truthy route id with 405;
return early without a session; answer 400 on a `get_base64_info`
error; then decode the base64 string (uncaught exception on failure),
sniff the mimetype (uncaught `AttributeError` when sniffing fails),
validate the sniffed content type (400 on `ContentTypeNotAllowed`), and
run `process_file`, answering with its code and the file (or
file-plus-thumbnail list) payload. -/
def on_post_base64 {α : Type} (C : Collab α) (st : FileControllerState)
    (session : Option Nat) (req : Base64Request) (id : Option Nat) :
    Trace × Outcome :=
  if pyTruthyId id then ([], .response 405 none none)
  else
    match session with
    | none => ([], .earlyReturn)
    | some user =>
      match get_base64_info st req with
      | .err msg => ([], .response 400 none (some msg))
      | .ok base64_info file_name =>
        match decode_base64_file base64_info with
        | .error e => ([.decodeB64], .uncaught e)
        | .ok base64_decoded =>
          match get_mimetype C base64_decoded with
          | .error e => ([.decodeB64, .sniff], .uncaught e)
          | .ok mimetype =>
            match check_if_valid_content_type st mimetype with
            | .error e =>
              ([.decodeB64, .sniff, .typeCheck mimetype],
               .response 400 none (some (exc_str e)))
            | .ok _ =>
              let make_thumbnail := check_if_make_thumbnail req.thumbnail_param
              let public_file := check_if_public_file req.public_param
              let private_file := check_if_private_file req.private_param
              let pf := process_file C file_name base64_decoded mimetype
                user false make_thumbnail public_file private_file
              let file := pf.2.1
              let thumbnail := pf.2.2.1
              let code := pf.2.2.2
              let data : PyValue :=
                match thumbnail with
                | some t => .list [file, t]
                | none => file
              ([.decodeB64, .sniff, .typeCheck mimetype] ++ pf.1,
               .response code (some data) none)

/-- Follows the spec's words (reference definition for claim C3): split
the original filename at its last dot into basename and extension; the
derived name is `<basename>_thumbnail.<ext>` when an extension exists,
else `<filename>_thumbnail`. -/
def splitLastDot : List Char → Option (List Char × List Char)
  | [] => none
  | c :: rest =>
    match splitLastDot rest with
    | some (b, e) => some (c :: b, e)
    | none => if c = '.' then some ([], rest) else none

/-- Follows the spec's words (reference definition for claim C3): the
thumbnail name the claim describes, on character lists. -/
def spec_thumbnail_name_chars (cs : List Char) : List Char :=
  match splitLastDot cs with
  | some (base, ext) => base ++ "_thumbnail.".toList ++ ext
  | none => cs ++ "_thumbnail".toList

/-- Follows the spec's words (reference definition for claim C3). -/
def spec_thumbnail_name (filename : String) : String :=
  String.mk (spec_thumbnail_name_chars filename.toList)

/-- Total number of bytes in a chunk list. -/
def totalLen (chunks : List (List Nat)) : Nat := (chunks.map List.length).sum

/-- Total number of bytes recorded by `streamRead` events of a trace. -/
def readBytes : Trace → Nat
  | [] => 0
  | .streamRead n :: tr => n + readBytes tr
  | _ :: tr => readBytes tr

/-- Trace of reading every chunk of a stream. -/
def readTrace (chunks : List (List Nat)) : Trace :=
  chunks.map (fun c => .streamRead c.length)

/-- Data of the first primary-file (`is_thumbnail = 0`) persistence
attempt recorded in a trace. -/
def primaryPersistData : Trace → Option (List Nat)
  | [] => none
  | .persist 0 _ d :: _ => some d
  | _ :: tr => primaryPersistData tr

/-- Test configuration: the spec's example policy
`accepted_files = ["image/jpeg", "image/png"]` with a 4MB limit. -/
def testPolicy : FileControllerState :=
  { accepted_files := ["image/jpeg", "image/png"], max_file_size := 4000000 }

/-- Test configuration with a tiny size limit for streaming tests. -/
def smallPolicy : FileControllerState :=
  { accepted_files := ["text/plain", "image/png"], max_file_size := 5 }

/-- Collaborators whose MIME sniffing always reports `image/gif`. -/
def collabGif : Collab Nat :=
  { create_file := fun _ _ _ _ _ _ _ _ => some 7
    serialize_model := fun n => .str (toString n)
    make_thumb := id
    compress := id
    guess := fun _ => some "image/gif" }

/-- Collaborators whose MIME sniffing always reports `image/png`. -/
def collabPng : Collab Nat :=
  { create_file := fun _ _ _ _ _ _ _ _ => some 7
    serialize_model := fun n => .str (toString n)
    make_thumb := id
    compress := id
    guess := fun _ => some "image/png" }

/-- Collaborators whose MIME sniffing recognizes nothing. -/
def collabNoGuess : Collab Nat :=
  { create_file := fun _ _ _ _ _ _ _ _ => some 7
    serialize_model := fun n => .str (toString n)
    make_thumb := id
    compress := id
    guess := fun _ => none }

/-- Collaborators whose `create_file` always fails. -/
def collabFailPrim : Collab Nat :=
  { create_file := fun _ _ _ _ _ _ _ _ => none
    serialize_model := fun n => .str (toString n)
    make_thumb := id
    compress := id
    guess := fun _ => some "image/png" }

/-- Collaborators whose `create_file` succeeds for primary files and
fails for thumbnails. -/
def collabFailThumb : Collab Nat :=
  { create_file := fun _ _ _ is_thumbnail _ _ _ _ =>
      if is_thumbnail = 0 then some 7 else none
    serialize_model := fun n => .str (toString n)
    make_thumb := id
    compress := id
    guess := fun _ => some "image/png" }

/-- Collaborators with a visible compression function. -/
def collabImg : Collab Nat :=
  { create_file := fun _ _ _ _ _ _ _ _ => some 7
    serialize_model := fun n => .str (toString n)
    make_thumb := id
    compress := fun bs => 0 :: bs
    guess := fun _ => some "image/png" }

/-- Base64 request whose decoded content sniffs as a disallowed type. -/
def reqGif : Base64Request :=
  { thumbnail_param := none, public_param := none, private_param := none
    body := .ok (some "f.gif", some "QQ==") }

/-- Base64 request carrying a malformed base64 string. -/
def reqBadB64 : Base64Request :=
  { thumbnail_param := none, public_param := none, private_param := none
    body := .ok (some "f.bin", some "A") }

/-- Base64 request carrying a valid one-byte base64 string. -/
def reqOkB64 : Base64Request :=
  { thumbnail_param := none, public_param := none, private_param := none
    body := .ok (some "f.png", some "QQ==") }

/-- Multipart request whose form has no parts at all. -/
def emptyFormReq : MultipartRequest :=
  { thumbnail_param := none, public_param := none, private_param := none
    parts := [] }

/-- Multipart request with a single small PNG part. -/
def pngPartReq : MultipartRequest :=
  { thumbnail_param := none, public_param := none, private_param := none
    parts := [{ filename := "a.png", content_type := "image/png", chunks := [[1, 2]] }] }

theorem pyCount_slice_zero (s : List Char) (c : Char) : pyCount s c (-1) (-5) = 0 := by
  have h : pySliceIdx s.length (-5) - pySliceIdx s.length (-1) = 0 := by
    unfold pySliceIdx
    simp only [if_pos (by omega : (-1 : Int) < 0), if_pos (by omega : (-5 : Int) < 0)]
    omega
  simp [pyCount, h]

theorem get_base64_file_length_eq (s : List Char) :
    get_base64_file_length s = ((s.length : ℚ) * 3) / 4 := by
  unfold get_base64_file_length
  rw [pyCount_slice_zero]
  simp

theorem get_base64_info_ok (st : FileControllerState) (req : Base64Request)
    (fn b64 : String) (hbody : req.body = .ok (some fn, some b64))
    (hfn : fn ≠ "") (hb : b64 ≠ "")
    (hsize : ¬ get_base64_file_length b64.toList > (st.max_file_size : ℚ)) :
    get_base64_info st req = .ok b64 fn := by
  unfold get_base64_info
  rw [hbody]
  have hsize' : get_base64_file_length b64.data ≤ (st.max_file_size : ℚ) :=
    not_lt.mp hsize
  simp [hfn, hb, hsize']

theorem stream_read_loop_success (st : FileControllerState) :
    ∀ (chunks : List (List Nat)) (r : Nat) (d : List Nat),
    (∀ c ∈ chunks, c.length ≠ 0) →
    r + totalLen chunks ≤ st.max_file_size →
    stream_read_loop st chunks r d = (readTrace chunks, .ok (d ++ chunks.flatten)) := by
  intro chunks
  induction chunks with
  | nil => intro r d _ _; simp [stream_read_loop, readTrace]
  | cons c rest ih =>
    intro r d hne hL
    have hc0 : c.length ≠ 0 := hne c (List.mem_cons_self c rest)
    have htot : totalLen (c :: rest) = c.length + totalLen rest := by
      simp [totalLen]
    have hnot : ¬ r + c.length > st.max_file_size := by omega
    have hL' : (r + c.length) + totalLen rest ≤ st.max_file_size := by omega
    have hrec := ih (r + c.length) (d ++ c)
      (fun x hx => hne x (List.mem_cons_of_mem c hx)) hL'
    simp [stream_read_loop, hc0, hnot, hrec, readTrace, List.append_assoc]

theorem stream_read_loop_error (st : FileControllerState) :
    ∀ (chunks : List (List Nat)) (r : Nat) (d : List Nat),
    (∀ c ∈ chunks, c.length ≠ 0) →
    (∀ c ∈ chunks, c.length ≤ CHUNK_SIZE) →
    r ≤ st.max_file_size →
    st.max_file_size < r + totalLen chunks →
    ∃ tr, stream_read_loop st chunks r d = (tr, .error .fileSizeGreaterThanAllowed) ∧
      st.max_file_size < r + readBytes tr ∧
      r + readBytes tr ≤ st.max_file_size + CHUNK_SIZE := by
  intro chunks
  induction chunks with
  | nil =>
    intro r d _ _ hr hL
    exfalso
    simp [totalLen] at hL
    omega
  | cons c rest ih =>
    intro r d hne hsz hr hL
    have hc0 : c.length ≠ 0 := hne c (List.mem_cons_self c rest)
    have hcs : c.length ≤ CHUNK_SIZE := hsz c (List.mem_cons_self c rest)
    have htot : totalLen (c :: rest) = c.length + totalLen rest := by
      simp [totalLen]
    by_cases hover : r + c.length > st.max_file_size
    · refine ⟨[.streamRead c.length], ?_, ?_, ?_⟩
      · simp [stream_read_loop, hc0, hover]
      · simp [readBytes]; omega
      · simp [readBytes]; omega
    · have hover' : r + c.length ≤ st.max_file_size := by omega
      have hL' : st.max_file_size < (r + c.length) + totalLen rest := by omega
      obtain ⟨tr, heq, h1, h2⟩ := ih (r + c.length) (d ++ c)
        (fun x hx => hne x (List.mem_cons_of_mem c hx))
        (fun x hx => hsz x (List.mem_cons_of_mem c hx)) hover' hL'
      refine ⟨.streamRead c.length :: tr, ?_, ?_, ?_⟩
      · simp [stream_read_loop, hc0, hover, heq]
      · simp [readBytes]; omega
      · simp [readBytes]; omega

theorem primaryPersistData_typeCheck (ct : String) (l : Trace) :
    primaryPersistData (.typeCheck ct :: l) = primaryPersistData l := rfl

theorem primaryPersistData_decodeB64 (l : Trace) :
    primaryPersistData (.decodeB64 :: l) = primaryPersistData l := rfl

theorem primaryPersistData_sniff (l : Trace) :
    primaryPersistData (.sniff :: l) = primaryPersistData l := rfl

theorem primaryPersistData_readTrace (chunks : List (List Nat)) (l : Trace) :
    primaryPersistData (readTrace chunks ++ l) = primaryPersistData l := by
  induction chunks with
  | nil => simp [readTrace]
  | cons c rest ih => simpa [readTrace] using ih

theorem primaryPersistData_process_file {α : Type} (C : Collab α)
    (filename : String) (data : List Nat) (content_type : String) (user : Nat)
    (encode_to_base64 make_thumbnail pub priv : Bool) :
    primaryPersistData
      (process_file C filename data content_type user
        encode_to_base64 make_thumbnail pub priv).1 = some data := by
  unfold process_file
  cases C.create_file filename data content_type 0 encode_to_base64 user pub priv with
  | none => rfl
  | some file =>
    by_cases h : make_thumbnail = true ∧ content_type ∈ IMAGE_EXTENSIONS
    · simp only [h, if_pos, if_true]
      rfl
    · simp only [if_neg h]
      rfl

theorem pySplit_no_dot (cs : List Char) (h : '.' ∉ cs) : pySplit cs = [cs] := by
  induction cs with
  | nil => rfl
  | cons c rest ih =>
    have hc : ¬ c = '.' := by
      intro e
      exact h (e ▸ List.mem_cons_self c rest)
    have hr : '.' ∉ rest := fun m => h (List.mem_cons_of_mem c m)
    simp [pySplit, ih hr, hc]

theorem pySplit_one_dot (a b : List Char) (ha : '.' ∉ a) (hb : '.' ∉ b) :
    pySplit (a ++ '.' :: b) = [a, b] := by
  induction a with
  | nil => simp [pySplit, pySplit_no_dot b hb]
  | cons c a' ih =>
    have hc : ¬ c = '.' := by
      intro e
      exact ha (e ▸ List.mem_cons_self c a')
    have ha' : '.' ∉ a' := fun m => ha (List.mem_cons_of_mem c m)
    simp [pySplit, ih ha', hc]

theorem splitLastDot_no_dot (cs : List Char) (h : '.' ∉ cs) :
    splitLastDot cs = none := by
  induction cs with
  | nil => rfl
  | cons c rest ih =>
    have hc : ¬ c = '.' := by
      intro e
      exact h (e ▸ List.mem_cons_self c rest)
    have hr : '.' ∉ rest := fun m => h (List.mem_cons_of_mem c m)
    simp [splitLastDot, ih hr, hc]

theorem splitLastDot_one_dot (a b : List Char) (ha : '.' ∉ a) (hb : '.' ∉ b) :
    splitLastDot (a ++ '.' :: b) = some (a, b) := by
  induction a with
  | nil => simp [splitLastDot, splitLastDot_no_dot b hb]
  | cons c a' ih =>
    have ha' : '.' ∉ a' := fun m => ha (List.mem_cons_of_mem c m)
    simp [splitLastDot, ih ha']

theorem count_one_decomp (cs : List Char) (h : cs.count '.' = 1) :
    ∃ a b, cs = a ++ '.' :: b ∧ '.' ∉ a ∧ '.' ∉ b := by
  induction cs with
  | nil => simp at h
  | cons c rest ih =>
    by_cases hc : c = '.'
    · subst hc
      have h0 : rest.count '.' = 0 := by
        simp [List.count_cons] at h
        omega
      exact ⟨[], rest, rfl, by simp, List.count_eq_zero.mp h0⟩
    · have h1 : rest.count '.' = 1 := by
        simp [List.count_cons, hc] at h
        omega
      obtain ⟨a, b, e, ha, hb⟩ := ih h1
      refine ⟨c :: a, b, by rw [e, List.cons_append], ?_, hb⟩
      intro m
      rcases List.mem_cons.mp m with h2 | h2
      · exact hc h2.symm
      · exact ha h2

/-- C1: the claim states that `get_base64_file_length` returns exactly the
decoded length of a validly-padded base64 string, i.e. `len * 3 / 4` minus
the trailing `=` characters. In the source the pad count is
`b64string.count("=", -1, -5)`, whose slice `[-1:-5]` is always empty, so
nothing is ever subtracted: on `"QQ=="` — decoded length 1, as `b64decode`
witnesses — the estimator returns 3, not 1. -/
theorem C1_estimator_ignores_padding :
    b64decode ("QQ==".toList) = Except.ok [65] ∧
    pyCount ("QQ==".toList) '=' (-1) (-5) = 0 ∧
    get_base64_file_length ("QQ==".toList) = 3 ∧
    get_base64_file_length ("QQ==".toList) ≠ 1 := by
  have hlen : ("QQ==".toList).length = 4 := rfl
  have h3 : get_base64_file_length ("QQ==".toList) = 3 := by
    rw [get_base64_file_length_eq, hlen]
    norm_num
  refine ⟨rfl, by decide, h3, ?_⟩
  rw [h3]
  norm_num

/-- C3 (counterexample): the claim derives the thumbnail name as
`<basename>_thumbnail.<ext>`, with basename and extension split at the
last dot; the code splits at every dot and keeps only the first two
segments, so on `"a.b.c"` it produces `"a_thumbnail.b"` instead of
`"a.b_thumbnail.c"`. -/
theorem C3_counterexample :
    thumbnail_name_of "a.b.c" = "a_thumbnail.b" ∧
    spec_thumbnail_name "a.b.c" = "a.b_thumbnail.c" ∧
    thumbnail_name_of "a.b.c" ≠ spec_thumbnail_name "a.b.c" :=
  ⟨rfl, rfl, by decide⟩

/-- C3 (amended): for every original filename containing at most one dot,
the thumbnail's derived filename is `<basename>_thumbnail.<ext>` when the
filename has an extension and `<basename>_thumbnail` when it has none
(filenames with several dots instead keep only the first two
dot-separated segments, as `C3_counterexample` shows). -/
theorem C3_thumbnail_name_single_dot (filename : String)
    (h : filename.toList.count '.' ≤ 1) :
    thumbnail_name_of filename = spec_thumbnail_name filename := by
  unfold thumbnail_name_of spec_thumbnail_name
  refine congrArg String.mk ?_
  rcases Nat.le_one_iff_eq_zero_or_eq_one.mp h with h0 | h1
  · have hnd : '.' ∉ filename.toList := List.count_eq_zero.mp h0
    unfold thumbnail_name_chars spec_thumbnail_name_chars
    rw [pySplit_no_dot _ hnd, splitLastDot_no_dot _ hnd]
  · obtain ⟨a, b, e, ha, hb⟩ := count_one_decomp _ h1
    unfold thumbnail_name_chars spec_thumbnail_name_chars
    rw [e, pySplit_one_dot a b ha hb, splitLastDot_one_dot a b ha hb]
    have hT : "_thumbnail.".toList = "_thumbnail".toList ++ ['.'] := rfl
    simp [hT]

theorem C3_witness :
    thumbnail_name_of "cat.jpg" = spec_thumbnail_name "cat.jpg" ∧
    thumbnail_name_of "cat" = spec_thumbnail_name "cat" :=
  ⟨C3_thumbnail_name_single_dot "cat.jpg" (by decide),
   C3_thumbnail_name_single_dot "cat" (by decide)⟩

/-- C5: for every streamed upload whose total byte length exceeds
`max_file_size`, the chunked read loop fails with
`FileSizeGreaterThanAllowed`, never returning partial data as success;
the size check runs after every chunk, so at the moment of the failure
the bytes read exceed the limit by at most one chunk; and
`process_stream` propagates the failure for any accepted content type. -/
theorem C5_oversized_stream_rejected (st : FileControllerState)
    (chunks : List (List Nat))
    (hne : ∀ c ∈ chunks, c.length ≠ 0)
    (hsz : ∀ c ∈ chunks, c.length ≤ CHUNK_SIZE)
    (hL : totalLen chunks > st.max_file_size) :
    (stream_read_loop st chunks 0 []).2 = .error .fileSizeGreaterThanAllowed ∧
    st.max_file_size < readBytes (stream_read_loop st chunks 0 []).1 ∧
    readBytes (stream_read_loop st chunks 0 []).1 ≤ st.max_file_size + CHUNK_SIZE ∧
    ∀ (α : Type) (C : Collab α) (ct : String), ct ∈ st.accepted_files →
      (process_stream C st ct chunks).2 = .error .fileSizeGreaterThanAllowed := by
  obtain ⟨tr, heq, h1, h2⟩ := stream_read_loop_error st chunks 0 []
    hne hsz (Nat.zero_le _) (by omega)
  refine ⟨by rw [heq], by rw [heq]; simpa using h1, by rw [heq]; simpa using h2, ?_⟩
  intro α C ct hct
  have hvalid : check_if_valid_content_type st ct = .ok () := by
    simp [check_if_valid_content_type, hct]
  simp [process_stream, hvalid, heq]

theorem C5_witness :
    (stream_read_loop smallPolicy [[1, 2, 3], [4, 5, 6]] 0 []).2 =
      .error .fileSizeGreaterThanAllowed ∧
    (process_stream collabPng smallPolicy "text/plain" [[1, 2, 3], [4, 5, 6]]).2 =
      .error .fileSizeGreaterThanAllowed :=
  ⟨(C5_oversized_stream_rejected smallPolicy [[1, 2, 3], [4, 5, 6]]
      (by decide) (by decide) (by decide)).1,
   (C5_oversized_stream_rejected smallPolicy [[1, 2, 3], [4, 5, 6]]
      (by decide) (by decide) (by decide)).2.2.2 Nat collabPng "text/plain" (by decide)⟩

/-- C6: for every streamed upload whose total byte length is at most
`max_file_size`, the chunked read loop succeeds and returns exactly the
concatenation of the stream's chunks, whatever the chunk boundaries; and
`process_stream` returns those very bytes for any accepted non-image
content type. -/
theorem C6_within_limit_stream_succeeds (st : FileControllerState)
    (chunks : List (List Nat))
    (hne : ∀ c ∈ chunks, c.length ≠ 0)
    (hL : totalLen chunks ≤ st.max_file_size) :
    (stream_read_loop st chunks 0 []).2 = .ok chunks.flatten ∧
    ∀ (α : Type) (C : Collab α) (ct : String),
      ct ∈ st.accepted_files → ct ∉ IMAGE_EXTENSIONS →
      (process_stream C st ct chunks).2 = .ok chunks.flatten := by
  have heq := stream_read_loop_success st chunks 0 [] hne (by omega)
  refine ⟨by rw [heq]; simp, ?_⟩
  intro α C ct h1 h2
  have hvalid : check_if_valid_content_type st ct = .ok () := by
    simp [check_if_valid_content_type, h1]
  simp [process_stream, hvalid, heq, h2]

theorem C6_witness :
    (stream_read_loop smallPolicy [[1, 2], [3]] 0 []).2 =
      .ok ([[1, 2], [3]] : List (List Nat)).flatten ∧
    (process_stream collabPng smallPolicy "text/plain" [[1, 2], [3]]).2 =
      .ok ([[1, 2], [3]] : List (List Nat)).flatten :=
  ⟨(C6_within_limit_stream_succeeds smallPolicy [[1, 2], [3]]
      (by decide) (by decide)).1,
   (C6_within_limit_stream_succeeds smallPolicy [[1, 2], [3]]
      (by decide) (by decide)).2 Nat collabPng "text/plain" (by decide) (by decide)⟩

/-- C9: for a multipart POST whose form contains zero parts, with a valid
session and no route id, the `for part in form` loop never runs, so the
final `self.response(resp, code, data)` references the never-assigned
`code` and the handler fails with an `UnboundLocalError` instead of
producing a response. -/
theorem C9_empty_form_unbound_variable {α : Type} (C : Collab α)
    (st : FileControllerState) (user : Nat) (req : MultipartRequest)
    (id : Option Nat) (hid : pyTruthyId id = false) (hparts : req.parts = []) :
    on_post C st (some user) req id = ([], .uncaught (.unboundLocalError "code")) := by
  simp [on_post, hid, hparts]

theorem C9_witness :
    on_post collabPng testPolicy (some 1) emptyFormReq none =
      ([], .uncaught (.unboundLocalError "code")) :=
  C9_empty_form_unbound_variable collabPng testPolicy 1 emptyFormReq none rfl rfl

theorem gbfl_QQ : get_base64_file_length ("QQ==".toList) = 3 := by
  rw [get_base64_file_length_eq, (show ("QQ==".toList).length = 4 from rfl)]
  norm_num

theorem gbfl_A : get_base64_file_length ("A".toList) = 3 / 4 := by
  rw [get_base64_file_length_eq, (show ("A".toList).length = 1 from rfl)]
  norm_num

theorem get_base64_info_reqGif :
    get_base64_info testPolicy reqGif = .ok "QQ==" "f.gif" :=
  get_base64_info_ok testPolicy reqGif "f.gif" "QQ==" rfl (by decide) (by decide)
    (by rw [gbfl_QQ, (show testPolicy.max_file_size = 4000000 from rfl)]; norm_num)

theorem get_base64_info_reqBadB64 :
    get_base64_info testPolicy reqBadB64 = .ok "A" "f.bin" :=
  get_base64_info_ok testPolicy reqBadB64 "f.bin" "A" rfl (by decide) (by decide)
    (by rw [gbfl_A, (show testPolicy.max_file_size = 4000000 from rfl)]; norm_num)

theorem get_base64_info_reqOkB64 :
    get_base64_info testPolicy reqOkB64 = .ok "QQ==" "f.png" :=
  get_base64_info_ok testPolicy reqOkB64 "f.png" "QQ==" rfl (by decide) (by decide)
    (by rw [gbfl_QQ, (show testPolicy.max_file_size = 4000000 from rfl)]; norm_num)

/-- C2 (amended): content-type validation precedes any stream read on the
multipart path — a disallowed declared type makes `process_stream` fail
with `ContentTypeNotAllowed` with no read in its trace — while on the
base64 path the payload is first decoded and MIME-sniffed and only then
validated: a disallowed sniffed type still yields the
`ContentTypeNotAllowed` 400 response, but only after the base64 string
has been decoded (the trace records the decode). -/
theorem C2_type_check_order :
    (∀ (α : Type) (C : Collab α) (st : FileControllerState) (ct : String)
        (chunks : List (List Nat)), ct ∉ st.accepted_files →
      process_stream C st ct chunks =
        ([.typeCheck ct], .error (.contentTypeNotAllowed ct st.accepted_files))) ∧
    (∀ (α : Type) (C : Collab α) (st : FileControllerState) (user : Nat)
        (req : Base64Request) (b64 fn : String) (bytes : List Nat) (mt : String),
      get_base64_info st req = .ok b64 fn →
      b64decode b64.toList = .ok bytes →
      C.guess bytes = some mt →
      mt ∉ st.accepted_files →
      on_post_base64 C st (some user) req none =
        ([.decodeB64, .sniff, .typeCheck mt],
         .response 400 none
           (some (exc_str (.contentTypeNotAllowed mt st.accepted_files))))) := by
  constructor
  · intro α C st ct chunks h
    simp [process_stream, check_if_valid_content_type, h]
  · intro α C st user req b64 fn bytes mt h1 h2 h3 h4
    have h2' : b64decode b64.data = Except.ok bytes := h2
    simp [on_post_base64, pyTruthyId, h1, decode_base64_file, h2', get_mimetype, h3,
          check_if_valid_content_type, h4]

/-- C2 (counterexample): with accepted types `["image/jpeg", "image/png"]`
and a payload whose decoded bytes sniff as `image/gif`, `on_post_base64`
answers with the `ContentTypeNotAllowed` 400 response, yet its trace
records the base64 decode: the string was decoded before the content-type
validation, contradicting the claim's base64 half. -/
theorem C2_counterexample :
    Event.decodeB64 ∈ (on_post_base64 collabGif testPolicy (some 1) reqGif none).1 ∧
    (on_post_base64 collabGif testPolicy (some 1) reqGif none).2 =
      .response 400 none
        (some (exc_str (.contentTypeNotAllowed "image/gif"
          ["image/jpeg", "image/png"]))) := by
  have hev : on_post_base64 collabGif testPolicy (some 1) reqGif none =
      ([.decodeB64, .sniff, .typeCheck "image/gif"],
       .response 400 none
         (some (exc_str (.contentTypeNotAllowed "image/gif"
           ["image/jpeg", "image/png"])))) := by
    simp only [on_post_base64, get_base64_info_reqGif]
    rfl
  refine ⟨?_, ?_⟩
  · rw [hev]
    decide
  · rw [hev]

theorem C2_witness :
    process_stream collabGif testPolicy "image/gif" [[1]] =
      ([.typeCheck "image/gif"],
       .error (.contentTypeNotAllowed "image/gif" ["image/jpeg", "image/png"])) ∧
    on_post_base64 collabGif testPolicy (some 1) reqGif none =
      ([.decodeB64, .sniff, .typeCheck "image/gif"],
       .response 400 none
         (some (exc_str (.contentTypeNotAllowed "image/gif"
           ["image/jpeg", "image/png"])))) :=
  ⟨C2_type_check_order.1 Nat collabGif testPolicy "image/gif" [[1]] (by decide),
   C2_type_check_order.2 Nat collabGif testPolicy 1 reqGif "QQ==" "f.gif" [65]
     "image/gif" get_base64_info_reqGif rfl rfl (by decide)⟩

/-- C4 (amended): for every base64 envelope whose base64 string fails to
decode, `decode_base64_file` raises and the exception escapes
`on_post_base64` uncaught: the handler produces no error response (there
is no try/except around the decode). -/
theorem C4_malformed_base64_exception_escapes {α : Type} (C : Collab α)
    (st : FileControllerState) (user : Nat) (req : Base64Request)
    (b64 fn : String) (e : PyExc)
    (h1 : get_base64_info st req = .ok b64 fn)
    (h2 : b64decode b64.toList = .error e) :
    on_post_base64 C st (some user) req none = ([.decodeB64], .uncaught e) := by
  have h2' : b64decode b64.data = Except.error e := h2
  simp [on_post_base64, pyTruthyId, h1, decode_base64_file, h2']

/-- C4 (counterexample): on the malformed base64 string `"A"` the handler
does not return an error outcome — the `binascii.Error` raised by the
decode escapes uncaught, contradicting the claim that an
`InvalidBase64`-class client error is returned. -/
theorem C4_counterexample :
    (on_post_base64 collabGif testPolicy (some 1) reqBadB64 none).2 =
      .uncaught .binasciiError := by
  simp only [on_post_base64, get_base64_info_reqBadB64]
  rfl

theorem C4_witness :
    on_post_base64 collabGif testPolicy (some 1) reqBadB64 none =
      ([.decodeB64], .uncaught .binasciiError) :=
  C4_malformed_base64_exception_escapes collabGif testPolicy 1 reqBadB64
    "A" "f.bin" .binasciiError get_base64_info_reqBadB64 rfl

/-- C7: when the primary `create_file` reports failure, `process_file`
returns the 500 status with payload
`{"Filename": name, "Error": "problem saving to db"}` and its trace shows
the thumbnail step was never attempted; when the primary succeeds but the
thumbnail's `create_file` fails, the thumbnail slot carries the
`{Filename_thumbnail, error}` entry while the primary file's serialized
payload and 201 status are unchanged. No exception escapes: both cases
return a well-formed triple. -/
theorem C7_persistence_failure_handling {α : Type} :
    (∀ (C : Collab α) (fn : String) (data : List Nat) (ct : String) (user : Nat)
        (mt pub priv : Bool),
      C.create_file fn data ct 0 false user pub priv = none →
      process_file C fn data ct user false mt pub priv =
        ([.persist 0 fn data],
         (.dict [("Filename", .str fn), ("Error", .str PROBLEM_SAVING_TO_DB)],
          none, 500))) ∧
    (∀ (C : Collab α) (fn : String) (data : List Nat) (ct : String) (user : Nat)
        (pub priv : Bool) (f : α),
      C.create_file fn data ct 0 false user pub priv = some f →
      ct ∈ IMAGE_EXTENSIONS →
      C.create_file (thumbnail_name_of fn) (C.make_thumb data) ct 1 false user
        pub false = none →
      process_file C fn data ct user false true pub priv =
        ([.persist 0 fn data,
          .persist 1 (thumbnail_name_of fn) (C.make_thumb data)],
         (C.serialize_model f,
          some (.dict [("Filename_thumbnail", .str fn),
                       ("error", .str PROBLEM_SAVING_TO_DB)]),
          201))) := by
  constructor
  · intro C fn data ct user mt pub priv h
    simp [process_file, h]
  · intro C fn data ct user pub priv f h1 h2 h3
    simp [process_file, h1, h2, create_thumbnail, h3]

theorem C7_witness :
    process_file collabFailPrim "a.png" [1] "image/png" 1 false false false false =
      ([.persist 0 "a.png" [1]],
       (.dict [("Filename", .str "a.png"), ("Error", .str PROBLEM_SAVING_TO_DB)],
        none, 500)) ∧
    process_file collabFailThumb "a.png" [1] "image/png" 1 false true false false =
      ([.persist 0 "a.png" [1],
        .persist 1 (thumbnail_name_of "a.png") (collabFailThumb.make_thumb [1])],
       (collabFailThumb.serialize_model 7,
        some (.dict [("Filename_thumbnail", .str "a.png"),
                     ("error", .str PROBLEM_SAVING_TO_DB)]),
        201)) :=
  ⟨C7_persistence_failure_handling.1 collabFailPrim "a.png" [1] "image/png" 1
     false false false rfl,
   C7_persistence_failure_handling.2 collabFailThumb "a.png" [1] "image/png" 1
     false false 7 rfl (by decide) rfl⟩

/-- C8: the bytes handed to the primary `create_file` are the compressed
bytes for stream-sourced image types and the raw joined bytes for
stream-sourced non-image types, while on the base64 path they are always
the raw decoded bytes — uncompressed even for image types. -/
theorem C8_compression_asymmetry :
    (∀ (α : Type) (C : Collab α) (st : FileControllerState) (user : Nat)
        (req : MultipartRequest) (part : Part) (rest : List Part),
      req.parts = part :: rest →
      part.content_type ∈ st.accepted_files →
      (∀ c ∈ part.chunks, c.length ≠ 0) →
      totalLen part.chunks ≤ st.max_file_size →
      primaryPersistData (on_post C st (some user) req none).1 =
        some (if part.content_type ∈ IMAGE_EXTENSIONS then
                C.compress part.chunks.flatten
              else part.chunks.flatten)) ∧
    (∀ (α : Type) (C : Collab α) (st : FileControllerState) (user : Nat)
        (req : Base64Request) (b64 fn : String) (bytes : List Nat) (mt : String),
      get_base64_info st req = .ok b64 fn →
      b64decode b64.toList = .ok bytes →
      C.guess bytes = some mt →
      mt ∈ st.accepted_files →
      primaryPersistData (on_post_base64 C st (some user) req none).1 =
        some bytes) := by
  constructor
  · intro α C st user req part rest hreq hct hne hL
    have hvalid : check_if_valid_content_type st part.content_type = .ok () := by
      simp [check_if_valid_content_type, hct]
    have hloop := stream_read_loop_success st part.chunks 0 [] hne (by omega)
    by_cases him : part.content_type ∈ IMAGE_EXTENSIONS
    · have hps : process_stream C st part.content_type part.chunks =
          (Event.typeCheck part.content_type :: readTrace part.chunks,
           .ok (C.compress part.chunks.flatten)) := by
        simp [process_stream, hvalid, hloop, him]
      simp [on_post, pyTruthyId, hreq, hps, him, List.cons_append,
            primaryPersistData_typeCheck, primaryPersistData_readTrace,
            primaryPersistData_process_file]
    · have hps : process_stream C st part.content_type part.chunks =
          (Event.typeCheck part.content_type :: readTrace part.chunks,
           .ok part.chunks.flatten) := by
        simp [process_stream, hvalid, hloop, him]
      simp [on_post, pyTruthyId, hreq, hps, him, List.cons_append,
            primaryPersistData_typeCheck, primaryPersistData_readTrace,
            primaryPersistData_process_file]
  · intro α C st user req b64 fn bytes mt h1 h2 h3 h4
    have hvalid : check_if_valid_content_type st mt = .ok () := by
      simp [check_if_valid_content_type, h4]
    have h2' : b64decode b64.data = Except.ok bytes := h2
    simp [on_post_base64, pyTruthyId, h1, decode_base64_file, h2', get_mimetype,
          h3, hvalid, List.cons_append, primaryPersistData_decodeB64,
          primaryPersistData_sniff, primaryPersistData_typeCheck,
          primaryPersistData_process_file]

theorem C8_witness :
    primaryPersistData (on_post collabImg smallPolicy (some 1) pngPartReq none).1 =
      some [0, 1, 2] ∧
    primaryPersistData
      (on_post_base64 collabPng testPolicy (some 1) reqOkB64 none).1 =
      some [65] :=
  ⟨C8_compression_asymmetry.1 Nat collabImg smallPolicy 1 pngPartReq
     { filename := "a.png", content_type := "image/png", chunks := [[1, 2]] } []
     rfl (by decide) (by decide) (by decide),
   C8_compression_asymmetry.2 Nat collabPng testPolicy 1 reqOkB64 "QQ==" "f.png"
     [65] "image/png" get_base64_info_reqOkB64 rfl rfl (by decide)⟩

/-- C10: for every base64-path upload whose decoded bytes MIME sniffing
does not recognize, `filetype.guess` returns `None`, the `.mime` access
in `get_mimetype` raises `AttributeError`, and that exception escapes
`on_post_base64` uncaught — the handler returns no content-type error
response. -/
theorem C10_unrecognized_bytes_uncaught {α : Type} (C : Collab α)
    (st : FileControllerState) (user : Nat) (req : Base64Request)
    (b64 fn : String) (bytes : List Nat)
    (h1 : get_base64_info st req = .ok b64 fn)
    (h2 : b64decode b64.toList = .ok bytes)
    (h3 : C.guess bytes = none) :
    on_post_base64 C st (some user) req none =
      ([.decodeB64, .sniff], .uncaught .attributeError) := by
  have h2' : b64decode b64.data = Except.ok bytes := h2
  simp [on_post_base64, pyTruthyId, h1, decode_base64_file, h2', get_mimetype, h3]

theorem C10_witness :
    on_post_base64 collabNoGuess testPolicy (some 1) reqOkB64 none =
      ([.decodeB64, .sniff], .uncaught .attributeError) :=
  C10_unrecognized_bytes_uncaught collabNoGuess testPolicy 1 reqOkB64
    "QQ==" "f.png" [65] get_base64_info_reqOkB64 rfl rfl

end FileUtilsVerif
